import Mathlib

/-!
# Verification of PyFOPPL-2: distribution catalog, shape inference, Clojure renderer

Shallow embedding of `src/foppl/distributions.py` and
`src/pyppl/ppl_clojure_repr.py`, with the minimal type/code-object/AST
models those files need (their defining modules `code_types.py`,
`code_objects.py` and `ppl_ast.py` are external; where they decide
behaviour they are modelled from the specification and marked as such).
-/

namespace PyFOPPL

/-- Modelled from the spec: `code_types.py` is not part of the given sources.
The spec's type model (§3) is a tagged variant `AnyType`, `IntegerType`,
`FloatType`, and a nestable `SequenceType {element_type, size}` where `size`
is a non-negative integer or unknown (`Option Nat` here).  The source also
uses `ListType`, a concrete `SequenceType`; the spec models a single
sequence variant, so `ListType t n` is embedded as `Ty.sequence t n`. -/
inductive Ty where
  | any
  | integer
  | float
  | sequence (item_type : Ty) (size : Option Nat)
deriving DecidableEq, Repr

/-- `DistributionType` enum from `distributions.py`. -/
inductive DistributionType where
  | continuous
  | discrete
deriving DecidableEq, Repr

/-- Which Python class a catalog entry was constructed from: the base
`Distribution`, or one of the two subclasses `BinomialDistribution` /
`CategoricalDistribution`.  Python virtual dispatch on `get_sample_type` /
`get_support_size` is embedded as a match on this tag. -/
inductive DistClass where
  | base
  | binomial
  | categorical
deriving DecidableEq, Repr

/-- The fields a `Distribution` object carries after `__init__` has run. -/
structure Distribution where
  cls : DistClass
  name : String
  foppl_name : String
  python_name : String
  distribution_type : DistributionType
  params : List String
  has_transform_flag : Bool
  vector_sample : Bool
  transform_forward : Option String
  transform_inverse : Option String
  transform_distribution : Option String
deriving DecidableEq, Repr

/-- Python's `str.lower`, as `__init__` applies it to the canonical name:
character-wise lower-casing of the string. -/
def pyLower (s : String) : String :=
  String.mk (s.data.map Char.toLower)

/-- `Distribution.__init__` (lines 25-51 of `distributions.py`): defaults
`foppl_name` to the lower-cased `name`, `python_name` to `name`, the
distribution type to CONTINUOUS, `params` to the empty list, and lets an
explicit `transforms` triple fill in whichever of the three transform
fields were not given individually. -/
def Distribution.make (cls : DistClass) (name : String)
    (distributions_type : Option DistributionType) (params : Option (List String))
    (has_transform_flag : Bool) (vector_sample : Bool)
    (transform_forward transform_inverse transform_distribution : Option String)
    (transforms : Option (String × String × String))
    (foppl_name python_name : Option String) : Distribution :=
  let tf := match transforms, transform_forward with
    | some (fd, _, _), none => some fd
    | _, t => t
  let ti := match transforms, transform_inverse with
    | some (_, inv, _), none => some inv
    | _, t => t
  let td := match transforms, transform_distribution with
    | some (_, _, dist), none => some dist
    | _, t => t
  { cls := cls
    name := name
    foppl_name := match foppl_name with
      | none => pyLower name
      | some f => f
    python_name := match python_name with
      | none => name
      | some p => p
    distribution_type := match distributions_type with
      | none => DistributionType.continuous
      | some t => t
    params := match params with
      | none => []
      | some p => p
    has_transform_flag := has_transform_flag
    vector_sample := vector_sample
    transform_forward := tf
    transform_inverse := ti
    transform_distribution := td }

/-- The catalog literal of `distributions.py` (lines 161-187), entry by entry
and in the written order.  The source builds a Python `set`; every lookup
below has a unique match among the entries, so iteration order is
irrelevant to the results, and a list in source order is a faithful model. -/
def distributions : List Distribution := [
  Distribution.make .base "Bernoulli" (some .discrete) (some ["probs"])
    false false none none none none none none,
  Distribution.make .base "Beta" (some .continuous) (some ["concentration0", "concentration1"])
    false false none none none none none none,
  Distribution.make .binomial "Binomial" (some .continuous) (some ["total_count", "probs"])
    false false none none none none none none,
  Distribution.make .categorical "Categorical" (some .discrete) (some ["probs"])
    false false none none none none none none,
  Distribution.make .base "Cauchy" (some .continuous) (some ["loc", "gamma"])
    false false none none none none none none,
  Distribution.make .base "Dirichlet" (some .continuous) (some ["concentration0"])
    false true none none none none none none,
  Distribution.make .base "Discrete" (some .discrete) none
    false false none none none none none none,
  Distribution.make .base "Exponential" (some .continuous) (some ["rate"])
    true false none none none none none none,
  Distribution.make .base "Gamma" (some .continuous) (some ["concentration0", "concentration1"])
    true false none none none (some ("bijector.Log", "bijector.Exp", "LogGamma")) none none,
  Distribution.make .base "HalfCauchy" (some .continuous) (some ["loc", "gamma"])
    false false none none none none (some "half_cauchy") none,
  Distribution.make .base "LogGamma" (some .continuous) (some ["concentration0", "concentration1"])
    true false none none none none (some "") none,
  Distribution.make .base "LogNormal" (some .continuous) (some ["loc", "scale"])
    false false none none none none (some "log_normal") none,
  Distribution.make .base "Multinomial" (some .discrete) (some ["total_count", "probs"])
    false false none none none none none none,
  Distribution.make .base "MultivariateNormal" (some .continuous) (some ["loc", "covariance_matrix"])
    false true none none none none (some "mvn") none,
  Distribution.make .base "Normal" (some .continuous) (some ["loc", "scale"])
    false false none none none none none none,
  Distribution.make .base "Poisson" (some .discrete) (some ["rate"])
    false false none none none none none none,
  Distribution.make .base "Uniform" (some .continuous) (some ["low", "high"])
    false false none none none none none none]

/-- `get_distribution_for_name` (lines 193-197): returns the first catalog
entry whose canonical `name`, `python_name` or `foppl_name` equals the
query, and `None` when no entry matches. -/
def get_distribution_for_name (name : String) : Option Distribution :=
  distributions.find? fun dist =>
    dist.name == name || dist.python_name == name || dist.foppl_name == name

/-- `foppl_distributions_map` (line 191): the alias map, keyed by
`foppl_name`, with empty aliases filtered out.  Keys are unique among the
filtered entries, so the dict comprehension is this association list. -/
def foppl_distributions_map : List (String × Distribution) :=
  (distributions.filter fun d => d.foppl_name ≠ "").map fun d => (d.foppl_name, d)

/-- `Distribution.get_sample_type` (lines 65-75), the base-class method.
Its `args` are types (the call sites pass `code_type`s): a scalar float for
CONTINUOUS, a scalar integer for DISCRETE, wrapped into
`ListType(result, args[0].size)` when `_vector_sample` is set and the first
argument is a `SequenceType`. -/
def Distribution.get_sample_type (d : Distribution) (args : List Ty) : Ty :=
  let result : Ty :=
    if d.distribution_type = DistributionType.continuous then .float else .integer
  match args with
  | (Ty.sequence _ n) :: _ =>
      if d.vector_sample then Ty.sequence result n else result
  | _ => result

/-- `BinomialDistribution.get_sample_type` (lines 134-139).  The source
assigns `result = ListType(IntegerType(), args[1].size)` under the
vector-sample branch but that local is never returned: the final statement
is `return IntegerType()` on every path, so the method is constantly the
scalar integer type (the branch is dead code). -/
def BinomialDistribution.get_sample_type (_d : Distribution) (_args : List Ty) : Ty :=
  Ty.integer

/-- `CategoricalDistribution.get_sample_type` (lines 147-155): with exactly
one argument, a doubly-nested sequence of outer size `n` yields
`ListType(IntegerType, n)`, a plain sequence yields the scalar integer
type, and anything else — including any other argument count — yields
`AnyType()`. -/
def CategoricalDistribution.get_sample_type (_d : Distribution) (args : List Ty) : Ty :=
  match args with
  | [arg] =>
      match arg with
      | Ty.sequence (Ty.sequence _ _) n => Ty.sequence .integer n
      | Ty.sequence _ _ => Ty.integer
      | _ => Ty.any
  | _ => Ty.any

/-- Python virtual dispatch for `get_sample_type`: the subclass method when
the entry was built from `BinomialDistribution` / `CategoricalDistribution`,
the base method otherwise. -/
def Distribution.sample_type (d : Distribution) (args : List Ty) : Ty :=
  match d.cls with
  | .base => d.get_sample_type args
  | .binomial => BinomialDistribution.get_sample_type d args
  | .categorical => CategoricalDistribution.get_sample_type d args

/-- Literal Python values as they appear inside `CodeValue` nodes: the
support-size probe only distinguishes lists from non-list scalars and takes
lengths of lists. -/
inductive PyValue where
  | int (n : Int)
  | str (s : String)
  | list (items : List PyValue)

/-- `type(v) is list` on a literal value. -/
def PyValue.isList : PyValue → Bool
  | .list _ => true
  | _ => false

/-- `len(v)` on a literal value; the probe only applies it under an
`isList` guard, so the non-list branches are never reached there. -/
def PyValue.pyLen : PyValue → Nat
  | .list items => items.length
  | _ => 0

/-- Modelled from the spec: `code_objects.py` is not part of the given
sources.  The spec's `ArgumentShape` (§3) gives the four shape-carrying
representations the probe dispatches on: a literal constant holding a
nested-list value (`CodeValue`), a vector-construction node holding
sub-expressions (`CodeVector`), a reference to a named data table whose
rows are lists (`CodeDataSymbol`, with `arg.node.data` the row list and
`len(arg)` its length), and any other expression carrying an
already-known type.  Every representation carries its `code_type`. -/
inductive CodeObject where
  | codeValue (value : PyValue) (code_type : Ty)
  | codeVector (items : List CodeObject) (code_type : Ty)
  | codeDataSymbol (data : List PyValue) (code_type : Ty)
  | codeExpr (code_type : Ty)

/-- The `code_type` attribute every code object carries. -/
def CodeObject.code_type : CodeObject → Ty
  | .codeValue _ t => t
  | .codeVector _ t => t
  | .codeDataSymbol _ t => t
  | .codeExpr t => t

/-- Python's `max` over a list of lengths: raises `ValueError` on an empty
sequence, which the probe does not guard against in its literal tier. -/
def pyMax : List Nat → Except String Nat
  | [] => .error "ValueError: max() arg is an empty sequence"
  | n :: ns => .ok (ns.foldl Nat.max n)

/-- `_is_vector` (line 85): a nested vector node or a literal list. -/
def CodeObject.isVectorItem : CodeObject → Bool
  | .codeVector _ _ => true
  | .codeValue (.list _) _ => true
  | _ => false

/-- The length `len(item)` the vector tier takes of a vector-shaped item:
the item count of a nested vector node, the list length of a literal list.
The tier applies it only under the `_is_vector` guard. -/
def CodeObject.vectorLen : CodeObject → Nat
  | .codeVector items _ => items.length
  | .codeValue (.list xs) _ => xs.length
  | _ => 0

/-- `Distribution._get_support_size` (lines 77-104), the shape probe, tier
by tier in the source's `elif` order; a raised `ValueError` from `max` is
an `Except.error`, a returned size or `None` an `Except.ok`. -/
def Distribution.get_support_size_probe (arg : CodeObject) : Except String (Option Nat) :=
  match arg with
  | .codeValue (.list xs) _ =>
      if xs.all PyValue.isList then
        (pyMax (xs.map PyValue.pyLen)).map some
      else
        .ok (some xs.length)
  | .codeVector items t =>
      if items.length > 0 then
        if items.all CodeObject.isVectorItem then
          (pyMax (items.map CodeObject.vectorLen)).map some
        else
          .ok (some items.length)
      else
        fromCodeType t
  | .codeDataSymbol data t =>
      if data.length > 0 then
        if data.all PyValue.isList then
          (pyMax (data.map PyValue.pyLen)).map some
        else
          .ok (some data.length)
      else
        fromCodeType t
  | .codeValue _ t => fromCodeType t
  | .codeExpr t => fromCodeType t
where
  /-- The final `elif isinstance(arg.code_type, SequenceType)` tier (lines
  97-104): the inner size for a sequence of sequences, the size for a plain
  sequence, `None` otherwise. -/
  fromCodeType : Ty → Except String (Option Nat)
  | Ty.sequence (Ty.sequence _ m) _ => .ok m
  | Ty.sequence _ n => .ok n
  | _ => .ok none

/-- `Distribution.get_support_size` (lines 106-107): probes `args[0]`;
Python raises `IndexError` when `args` is empty. -/
def Distribution.base_get_support_size (args : List CodeObject) : Except String (Option Nat) :=
  match args with
  | arg :: _ => Distribution.get_support_size_probe arg
  | [] => .error "IndexError: list index out of range"

/-- `BinomialDistribution.get_support_size` (lines 141-142): probes
`args[1]` instead. -/
def BinomialDistribution.get_support_size (args : List CodeObject) : Except String (Option Nat) :=
  match args with
  | _ :: arg :: _ => Distribution.get_support_size_probe arg
  | _ => .error "IndexError: list index out of range"

/-- Python virtual dispatch for `get_support_size`: only
`BinomialDistribution` overrides it. -/
def Distribution.support_size (d : Distribution) (args : List CodeObject) :
    Except String (Option Nat) :=
  match d.cls with
  | .binomial => BinomialDistribution.get_support_size args
  | _ => Distribution.base_get_support_size args

/-!
## The Clojure renderer (`src/pyppl/ppl_clojure_repr.py`)
-/

/-- Modelled from the spec: names handled by `visit_name` are plain
strings or tuples of strings (`ppl_ast.py` is not part of the given
sources). -/
inductive PyName where
  | str (s : String)
  | tuple (names : List String)

/-- The AST of `ppl_ast.py`, with one variant per construct of the spec's
`ASTNode` union (§3) and exactly the fields `ppl_clojure_repr.py` reads.
Field structure is modelled from the spec where `ppl_ast.py` would define
it.  `unknown` stands for a node variant with no corresponding rendering
rule (the spec's §4.3 failure policy).  A `call`'s `keyword_args` values
stand for the `str()` of the stored value, which `visit_call` formats
without visiting. -/
inductive AST where
  | attribute (base : AST) (attr : String)
  | binary (op : String) (left : AST) (right : AST)
  | body (items : List AST)
  | break_
  | call (function : AST) (args : List AST) (keyword_args : List (String × String))
  | compare (op : String) (left : AST) (right : AST)
      (second_op : Option String) (second_right : Option AST)
  | def_ (name : PyName) (value : AST)
  | for_ (target : PyName) (source : AST) (body : AST)
  | function (parameters : List String) (vararg : Option String) (body : AST)
  | if_ (test : AST) (if_node : AST) (else_node : Option AST)
  | import_ (module_name : String) (imported_names : Option (List String)) (alias_ : Option String)
  | let_ (targets : List PyName) (sources : List AST) (body : AST)
  | list_for (target : PyName) (source : AST) (expr : AST)
  | observe (dist : AST) (value : AST)
  | return_ (value : AST)
  | sample (dist : AST)
  | slice (base : AST) (start : Option AST) (stop : Option AST)
  | subscript (base : AST) (index : AST)
  | symbol (name : String)
  | unary (op : String) (item : AST)
  | value (v : PyValue)
  | value_vector (items : List PyValue)
  | vector (items : List AST)
  | while_ (test : AST) (body : AST)
  | unknown (kind : String)

/-- `str.join` as Python's `' '.join` / `'\n  '.join` behave: empty string
for an empty list, no separator at the ends. -/
def sjoin (sep : String) : List String → String
  | [] => ""
  | [s] => s
  | s :: rest => s ++ sep ++ sjoin sep rest

/-- The re-indentation step of `visit_indent` (lines 13-19):
`result.replace('\n', '\n' + indent)`.  The pattern is the single
character `'\n'`, so the replacement is an exact per-character map. -/
def replaceNewlines (indent : String) (s : String) : String :=
  String.mk ((s.data.map fun c => if c = '\n' then '\n' :: indent.data else [c]).flatten)

/-- `visit_name` (lines 21-27): a plain string is returned as is, a tuple
becomes a bracketed, comma-separated list. -/
def renderName : PyName → String
  | .str s => s
  | .tuple names => "[" ++ sjoin ", " names ++ "]"

/-- Modelled from the spec: Python's `repr` of a literal value as
`visit_value` / `visit_value_vector` print it (`AstValue.__repr__` lives
in `ppl_ast.py`): integers print as decimal, strings quoted, lists
bracketed and comma-separated. -/
def pyRepr : PyValue → String
  | .int n => toString n
  | .str s => "\x27" ++ s ++ "\x27"
  | .list items => "[" ++ sjoin ", " (pyReprList items) ++ "]"
where
  pyReprList : List PyValue → List String
  | [] => []
  | x :: xs => pyRepr x :: pyReprList xs

/-- Modelled from the spec: `AstSlice.start_as_int` (from `ppl_ast.py`),
the lower bound as an integer when the start expression is an integer
literal, else `None`. -/
def startAsInt : Option AST → Option Int
  | some (.value (.int n)) => some n
  | _ => none

mutual
/-- The `ClojureRepr` visitor of `ppl_clojure_repr.py`, one case per
`visit_...` method, in the file's order.  Python's tree mutation is made
observable by returning, next to the produced string, the tree as it
stands after the call (an exception becomes `Except.error`, and a child's
exception aborts the parent, as in Python).  `visit_indent` is inlined as
`replaceNewlines` applied at each point of substitution. -/
def render : AST → Except String (String × AST)
  | .attribute base attr => do
      let (b, base') ← render base
      pure ("(. " ++ b ++ " " ++ attr ++ ")", .attribute base' attr)
  | .binary op left right => do
      let (l, left') ← render left
      let (r, right') ← render right
      pure ("(" ++ op ++ " " ++ l ++ " " ++ r ++ ")", .binary op left' right')
  | .body items => do
      let (ss, items') ← renderList items
      pure ("(do\n  " ++ sjoin "\n  " (ss.map (replaceNewlines "  ")) ++ ")", .body items')
  | .break_ => pure ("(break)", AST.break_)
  | .call function args keyword_args => do
      let (f, function') ← render function
      let (argStrs, args') ← renderList args
      let allArgs := if keyword_args.length > 0
        then argStrs ++ keyword_args.map fun p => ":" ++ p.1 ++ " " ++ p.2
        else argStrs
      pure ("(" ++ f ++ " " ++ sjoin " " allArgs ++ ")", .call function' args' keyword_args)
  | .compare op left right second_op second_right => do
      let (l, left') ← render left
      let (r, right') ← render right
      match second_right with
      | some sr => do
          let (t, sr') ← render sr
          if second_op = some op then
            pure ("(" ++ op ++ " " ++ l ++ " " ++ r ++ " " ++ t ++ ")",
                  .compare op left' right' second_op (some sr'))
          else
            let sop := match second_op with | some s => s | none => "None"
            pure ("(and (" ++ op ++ " " ++ l ++ " " ++ r ++ ") (" ++ sop ++ " " ++ r ++ " "
                    ++ t ++ "))",
                  .compare op left' right' second_op (some sr'))
      | none =>
          pure ("(" ++ op ++ " " ++ l ++ " " ++ r ++ ")", .compare op left' right' second_op none)
  | .def_ name value => do
      let (v, value') ← render value
      let vi := replaceNewlines "  " v
      if vi.data.contains '\n' then
        pure ("(def " ++ renderName name ++ "\n  " ++ vi ++ ")", .def_ name value')
      else
        pure ("(def " ++ renderName name ++ " " ++ vi ++ ")", .def_ name value')
  | .for_ target source body => do
      let (src, source') ← render source
      let (_b, body') ← render body
      pure ("(doseq [" ++ renderName target ++ "]\n  " ++ src ++ ")", .for_ target source' body')
  | .function parameters vararg body => do
      let params := match vararg with
        | some v => parameters ++ ["& " ++ v]
        | none => parameters
      let (b, body') ← render body
      pure ("(fn [" ++ sjoin " " params ++ "]\n  " ++ replaceNewlines "  " b ++ ")",
            .function params vararg body')
  | .if_ test if_node else_node => do
      let (t, test') ← render test
      let (b, ifNode') ← render if_node
      let (ebOpt, else') ← renderOpt else_node
      match ebOpt with
      | some eb =>
          pure ("(if " ++ t ++ "\n  " ++ replaceNewlines "  " b ++ "\n  "
                  ++ replaceNewlines "  " eb ++ ")",
                .if_ test' ifNode' else')
      | none =>
          pure ("(if " ++ t ++ "\n  " ++ replaceNewlines "  " b ++ ")", .if_ test' ifNode' else')
  | .import_ module_name imported_names alias_ =>
      let node : AST := .import_ module_name imported_names alias_
      match alias_ with
      | some a =>
          match imported_names with
          | none => pure ("(require \x27" ++ module_name ++ " :as " ++ a ++ ")", node)
          | some [] => .error "IndexError: list index out of range"
          | some (n0 :: _) =>
              pure ("(require \x27" ++ module_name ++ " [" ++ n0 ++ " :as " ++ a ++ "])", node)
      | none =>
          match imported_names with
          | some names =>
              match names with
              | [n0] =>
                  if n0 = "*" then pure ("(use \x27" ++ module_name ++ ")", node)
                  else pure ("(require \x27" ++ module_name ++ " :refer [" ++ n0 ++ "])", node)
              | _ =>
                  pure ("(require \x27" ++ module_name ++ " :refer ["
                          ++ sjoin " " names ++ "])", node)
          | none => pure ("(require \x27" ++ module_name ++ ")", node)
  | .let_ targets sources body => do
      let (srcStrs, sources') ← renderListBounded targets.length sources
      let bindings := (targets.zip srcStrs).map fun p =>
        renderName p.1 ++ " " ++ replaceNewlines "      " p.2
      let (b, body') ← render body
      pure ("(let [" ++ sjoin "\n      " bindings ++ "]\n  " ++ replaceNewlines "  " b ++ ")",
            .let_ targets sources' body')
  | .list_for target source expr => do
      let (src, source') ← render source
      let (_e, expr') ← render expr
      pure ("(for " ++ renderName target ++ "\n  " ++ src ++ ")", .list_for target source' expr')
  | .observe dist value => do
      let (d, dist') ← render dist
      let (v, value') ← render value
      pure ("(observe " ++ d ++ " " ++ v ++ ")", .observe dist' value')
  | .return_ value => do
      let (v, value') ← render value
      pure ("(return " ++ v ++ ")", .return_ value')
  | .sample dist => do
      let (d, dist') ← render dist
      pure ("(sample " ++ d ++ ")", .sample dist')
  | .slice base start stop => do
      let (seq, base') ← render base
      let (startStr, start') ← renderOpt start
      let (stopStr, stop') ← renderOpt stop
      match stopStr with
      | none =>
          if startAsInt start = some 1 then
            pure ("(rest " ++ seq ++ ")", .slice base' start' stop')
          else
            let s := match startStr with | some s => s | none => "None"
            pure ("(drop " ++ seq ++ " " ++ s ++ ")", .slice base' start' stop')
      | some stopS =>
          match startStr with
          | none => pure ("(take " ++ seq ++ " " ++ stopS ++ ")", .slice base' start' stop')
          | some startS =>
              pure ("(subvec " ++ seq ++ " " ++ startS ++ " " ++ stopS ++ ")",
                    .slice base' start' stop')
  | .subscript base index => do
      let (s, base') ← render base
      let (i, index') ← render index
      pure ("(get " ++ s ++ " " ++ i ++ ")", .subscript base' index')
  | .symbol name => pure (name, .symbol name)
  | .unary op item => do
      let (i, item') ← render item
      pure ("(" ++ op ++ " " ++ i ++ ")", .unary op item')
  | .value v => pure (pyRepr v, .value v)
  | .value_vector items => pure ("[" ++ sjoin " " (items.map pyRepr) ++ "]", .value_vector items)
  | .vector items => do
      let (ss, items') ← renderList items
      pure ("[" ++ sjoin " " ss ++ "]", .vector items')
  | .while_ test body => do
      let (t, test') ← render test
      let (b, body') ← render body
      pure ("(while " ++ t ++ "\n  " ++ replaceNewlines "  " b ++ ")", .while_ test' body')
  | .unknown kind => .error ("unsupported AST node of type " ++ kind)

/-- Rendering of a list of child nodes, left to right, threading the
post-call tree and aborting at the first failing child. -/
def renderList : List AST → Except String (List String × List AST)
  | [] => pure ([], [])
  | x :: xs => do
      let (s, x') ← render x
      let (ss, xs') ← renderList xs
      pure (s :: ss, x' :: xs')

/-- Rendering of the first `n` nodes only, as `visit_let`'s
`zip(node.targets, node.sources)` visits just the zipped sources; the
rest are passed through unvisited. -/
def renderListBounded : Nat → List AST → Except String (List String × List AST)
  | _, [] => pure ([], [])
  | 0, rest => pure ([], rest)
  | n + 1, x :: xs => do
      let (s, x') ← render x
      let (ss, xs') ← renderListBounded n xs
      pure (s :: ss, x' :: xs')

/-- `self.visit` applied to a field that may be `None` (as in
`visit_slice` and `visit_if`): visiting `None` yields `None`. -/
def renderOpt : Option AST → Except String (Option String × Option AST)
  | none => pure (none, none)
  | some x => do
      let (s, x') ← render x
      pure (some s, some x')
end

/-- `dump` (lines 175-182): the module's entry point, returning the
rendered string of the whole tree. -/
def dump (ast : AST) : Except String String :=
  (render ast).map Prod.fst

/-!
## Spec-side definitions and concrete descriptors used by the theorems
-/

/-- Spec §4.2, rule 1, in the spec's words: a literal nested-list value
resolves to the maximum element-list length when every element is itself a
list, else to the outer list length; other representations are not this
tier's business. -/
def literal_tier : CodeObject → Option (Except String (Option Nat))
  | .codeValue (.list xs) _ =>
      some (if xs.all PyValue.isList
            then (pyMax (xs.map PyValue.pyLen)).map some
            else Except.ok (some xs.length))
  | _ => none

/-- Spec §4.2, rule 2: a vector-construction node with at least one item
resolves to the maximum item length when every item is vector-shaped, else
to the item count. -/
def vector_tier : CodeObject → Option (Except String (Option Nat))
  | .codeVector (item :: rest) _ =>
      some (if (item :: rest).all CodeObject.isVectorItem
            then (pyMax ((item :: rest).map CodeObject.vectorLen)).map some
            else Except.ok (some (item :: rest).length))
  | _ => none

/-- Spec §4.2, rule 3: a named data table with at least one row mirrors
rule 1 over the table's rows. -/
def table_tier : CodeObject → Option (Except String (Option Nat))
  | .codeDataSymbol (row :: rest) _ =>
      some (if (row :: rest).all PyValue.isList
            then (pyMax ((row :: rest).map PyValue.pyLen)).map some
            else Except.ok (some (row :: rest).length))
  | _ => none

/-- Spec §4.2, rule 4: falling back to the declared type, the inner size
for a sequence of sequences, the size for a plain sequence, unknown for
everything else. -/
def declared_type_tier : Ty → Option Nat
  | .sequence (.sequence _ inner) _ => inner
  | .sequence _ n => n
  | _ => none

/-- Spec §4.2's shape-probing function: the four tiers tried in order,
the declared-type fallback last. -/
def support_size_spec (arg : CodeObject) : Except String (Option Nat) :=
  match literal_tier arg with
  | some r => r
  | none =>
      match vector_tier arg with
      | some r => r
      | none =>
          match table_tier arg with
          | some r => r
          | none => .ok (declared_type_tier arg.code_type)

/-- The catalog's LogGamma entry: the one descriptor registered with an
empty `foppl_name`. -/
def logGammaEntry : Distribution :=
  Distribution.make .base "LogGamma" (some .continuous)
    (some ["concentration0", "concentration1"]) true false none none none none (some "") none

/-- The catalog's HalfCauchy entry, alias-named `half_cauchy`. -/
def halfCauchyEntry : Distribution :=
  Distribution.make .base "HalfCauchy" (some .continuous) (some ["loc", "gamma"])
    false false none none none none (some "half_cauchy") none

/-- The catalog's Dirichlet entry: a base-class descriptor with
`vector_sample` set. -/
def dirichletEntry : Distribution :=
  Distribution.make .base "Dirichlet" (some .continuous) (some ["concentration0"])
    false true none none none none none none

/-- The catalog's Categorical entry, built from `CategoricalDistribution`. -/
def categoricalEntry : Distribution :=
  Distribution.make .categorical "Categorical" (some .discrete) (some ["probs"])
    false false none none none none none none

/-- A `BinomialDistribution` instance with the `vector_sample` flag set —
the hypothetical descriptor the claim's vector clause speaks about (the
catalog's own Binomial entry is registered without the flag). -/
def binomialVectorSampleEntry : Distribution :=
  Distribution.make .binomial "Binomial" (some .continuous) (some ["total_count", "probs"])
    false true none none none none none none

/-!
## The claims
-/

/-- C1: the claim says a `Slice` with a lower bound and no upper bound
renders as a "drop" form with the amount before the sequence,
`render(Slice(seq, start=2, stop=None)) = "(drop 2 seq)"`.  The code
formats the sequence first (`"(drop {} {})".format(sequence, start)`), so
that input renders as `"(drop seq 2)"` and not as the claim's string; the
`rest` special case for a lower bound of exactly one, the `take` form and
the `subvec` form are as described. -/
theorem c1_slice_drop_renders_sequence_first :
    dump (.slice (.symbol "seq") (some (.value (.int 2))) none) = .ok "(drop seq 2)"
    ∧ dump (.slice (.symbol "seq") (some (.value (.int 2))) none) ≠ .ok "(drop 2 seq)"
    ∧ dump (.slice (.symbol "seq") (some (.value (.int 1))) none) = .ok "(rest seq)"
    ∧ dump (.slice (.symbol "seq") none (some (.value (.int 3)))) = .ok "(take seq 3)"
    ∧ dump (.slice (.symbol "seq") (some (.value (.int 1))) (some (.value (.int 3))))
        = .ok "(subvec seq 1 3)" := by
  refine ⟨rfl, fun h => ?_, rfl, rfl, rfl⟩
  have h' : "(drop seq 2)" = "(drop 2 seq)" := by injection h
  exact absurd h' (by decide)

/-- C2: the claim says rendering leaves the input tree unchanged — in
particular a `Function` node's parameter list — so rendering the same tree
twice yields the same string.  `visit_function` aliases `node.parameters`
and appends the variadic marker to it: after rendering
`Function(parameters=["x"], vararg="y", body=z)` the node's parameter list
has become `["x", "& y"]`, and rendering the post-call tree again yields a
different string with the marker duplicated. -/
theorem c2_function_render_mutates_parameters :
    render (.function ["x"] (some "y") (.symbol "z"))
      = .ok ("(fn [x & y]\n  z)", .function ["x", "& y"] (some "y") (.symbol "z"))
    ∧ AST.function ["x", "& y"] (some "y") (.symbol "z")
        ≠ AST.function ["x"] (some "y") (.symbol "z")
    ∧ render (.function ["x", "& y"] (some "y") (.symbol "z"))
        = .ok ("(fn [x & y & y]\n  z)", .function ["x", "& y", "& y"] (some "y") (.symbol "z"))
    ∧ "(fn [x & y & y]\n  z)" ≠ "(fn [x & y]\n  z)" := by
  refine ⟨rfl, fun h => ?_, rfl, by decide⟩
  have h' : ["x", "& y"] = ["x"] := by injection h
  exact absurd h' (by decide)

/-- C9: an AST node variant with no corresponding rendering rule makes
`dump` abort with an internal-error signal — also when the node sits below
other nodes — and never yields a result string, empty or otherwise. -/
theorem c9_unknown_node_aborts :
    (∀ kind, dump (.unknown kind) = .error ("unsupported AST node of type " ++ kind))
    ∧ (∀ kind out, dump (.unknown kind) ≠ .ok out)
    ∧ dump (.sample (.unknown "AstSpecial")) = .error "unsupported AST node of type AstSpecial"
    ∧ (∀ kind rest out, dump (.body (.unknown kind :: rest)) ≠ .ok out) := by
  exact ⟨fun kind => rfl, fun kind out h => Except.noConfusion h, rfl,
    fun kind rest out h => Except.noConfusion h⟩

/-- C10: the shape probe's literal tier does not guard against emptiness:
on a literal whose value is the empty list, the "every element is a list"
test is vacuously true and Python's `max` over the empty length list
raises, so the probe fails rather than returning a size or `None`; the
vector-construction and data-table tiers do guard (`len(...) > 0`) and an
empty one falls through to the declared-type tier. -/
theorem c10_empty_literal_probe_fails :
    (∀ t, Distribution.get_support_size_probe (.codeValue (.list []) t)
        = .error "ValueError: max() arg is an empty sequence")
    ∧ (∀ t n, Distribution.get_support_size_probe (.codeValue (.list []) t) ≠ .ok n)
    ∧ (∀ t, Distribution.get_support_size_probe (.codeVector [] t)
        = Distribution.get_support_size_probe.fromCodeType t)
    ∧ (∀ t, Distribution.get_support_size_probe (.codeDataSymbol [] t)
        = Distribution.get_support_size_probe.fromCodeType t) :=
  ⟨fun _ => rfl, fun _ _ h => Except.noConfusion h, fun _ => rfl, fun _ => rfl⟩

/-- C3: the claim says the count-like (`BinomialDistribution`) override
returns, when `vector_sample` holds and the second argument is a sequence
of size N, a length-N sequence of integers.  The code assigns that
sequence type to a local `result` it never returns — `return IntegerType()`
ends the method on every path — so the sample type is the scalar integer
type for every descriptor and argument list; moreover the catalog's
Binomial entry is registered without `vector_sample` at all. -/
theorem c3_binomial_sample_type_always_scalar :
    (∀ d args, BinomialDistribution.get_sample_type d args = Ty.integer)
    ∧ Distribution.sample_type binomialVectorSampleEntry [Ty.float, Ty.sequence Ty.float (some 3)]
        = Ty.integer
    ∧ Distribution.sample_type binomialVectorSampleEntry [Ty.float, Ty.sequence Ty.float (some 3)]
        ≠ Ty.sequence Ty.integer (some 3)
    ∧ (get_distribution_for_name "binomial").map Distribution.vector_sample = some false := by
  refine ⟨fun _ _ => rfl, rfl, by decide, by decide⟩

/-- C4: for every catalog descriptor and every name equal to its canonical
name, its non-empty source alias, or its runtime name,
`get_distribution_for_name` returns that same descriptor. -/
theorem c4_lookup_alias_roundtrip (d : Distribution) (hd : d ∈ distributions) (name : String)
    (hname : name = d.name ∨ name = d.python_name ∨ (d.foppl_name ≠ "" ∧ name = d.foppl_name)) :
    get_distribution_for_name name = some d := by
  have h : ∀ d' ∈ distributions,
      get_distribution_for_name d'.name = some d' ∧
      get_distribution_for_name d'.python_name = some d' ∧
      (d'.foppl_name ≠ "" → get_distribution_for_name d'.foppl_name = some d') := by decide
  rcases hname with rfl | rfl | ⟨_, rfl⟩
  · exact (h d hd).1
  · exact (h d hd).2.1
  · exact (h d hd).2.2 (by assumption)

/-- C4 witness: the round trip instantiated at the HalfCauchy descriptor
and its source alias `half_cauchy`. -/
theorem c4_lookup_alias_roundtrip_witness :
    get_distribution_for_name "half_cauchy" = some halfCauchyEntry :=
  c4_lookup_alias_roundtrip halfCauchyEntry (by decide) "half_cauchy"
    (Or.inr (Or.inr ⟨by decide, by decide⟩))

/-- C5 counterexample: the claim says a descriptor with an empty source
alias is excluded from alias lookup, so that lookup of the empty string
returns no descriptor.  `get_distribution_for_name` compares `foppl_name`
without excluding the empty alias, and the empty string finds the
LogGamma entry. -/
theorem c5_lookup_empty_string_counterexample :
    get_distribution_for_name "" = some logGammaEntry
    ∧ get_distribution_for_name "" ≠ none := by
  exact ⟨by decide, by decide⟩

/-- C5 amended: only the alias map `foppl_distributions_map` excludes
descriptors with an empty source alias (it has no empty-string key);
`get_distribution_for_name` itself does not exclude them, and lookup of
the empty string returns the LogGamma descriptor, whose source alias is
empty. -/
theorem c5_empty_alias_excluded_from_map_not_lookup :
    (foppl_distributions_map.all fun p => p.1 != "") = true
    ∧ get_distribution_for_name "" = some logGammaEntry
    ∧ logGammaEntry.foppl_name = "" := by
  exact ⟨by decide, by decide, by decide⟩

/-- C6: for a descriptor without distribution-specific override (built
from the base class), the sample type is the scalar float type when the
kind is CONTINUOUS and the scalar integer type when DISCRETE, whatever the
arguments are — except that with the `vector_sample` flag set and a first
argument that is a sequence of size N, it is a length-N sequence of that
scalar type. -/
theorem c6_default_sample_type (d : Distribution) (args : List Ty)
    (h : d.cls = DistClass.base) :
    (d.vector_sample = false → d.sample_type args
        = (if d.distribution_type = DistributionType.continuous then Ty.float else Ty.integer))
    ∧ (∀ t n rest, d.vector_sample = true → args = Ty.sequence t n :: rest →
        d.sample_type args = Ty.sequence
          (if d.distribution_type = DistributionType.continuous then Ty.float else Ty.integer) n)
    ∧ (∀ a rest, args = a :: rest → (∀ t n, a ≠ Ty.sequence t n) → d.sample_type args
        = (if d.distribution_type = DistributionType.continuous then Ty.float else Ty.integer))
    ∧ (args = [] → d.sample_type args
        = (if d.distribution_type = DistributionType.continuous then Ty.float else Ty.integer)) := by
  refine ⟨?_, ?_, ?_, ?_⟩
  · intro hv
    cases args with
    | nil => simp [Distribution.sample_type, h, Distribution.get_sample_type]
    | cons a rest =>
        cases a <;> simp [Distribution.sample_type, h, Distribution.get_sample_type, hv]
  · intro t n rest hv harg
    subst harg
    simp [Distribution.sample_type, h, Distribution.get_sample_type, hv]
  · intro a rest harg hna
    subst harg
    cases a with
    | sequence t n => exact absurd rfl (hna t n)
    | _ => simp [Distribution.sample_type, h, Distribution.get_sample_type]
  · intro harg
    subst harg
    simp [Distribution.sample_type, h, Distribution.get_sample_type]

/-- C6 witness: the Dirichlet descriptor (base class, `vector_sample`
set, CONTINUOUS) with a first argument of sequence size 5 yields a
length-5 sequence of floats. -/
theorem c6_default_sample_type_witness :
    dirichletEntry.cls = DistClass.base ∧ dirichletEntry.vector_sample = true
    ∧ Distribution.sample_type dirichletEntry [Ty.sequence Ty.float (some 5)]
        = Ty.sequence Ty.float (some 5) := by
  refine ⟨rfl, rfl, ?_⟩
  exact (c6_default_sample_type dirichletEntry [Ty.sequence Ty.float (some 5)] rfl).2.1
    Ty.float (some 5) [] rfl rfl

/-- C7: for a descriptor built from `CategoricalDistribution`, the sample
type with exactly one argument is a length-N sequence of integers when
that argument is a sequence of sequences of (outer) size N, the scalar
integer type when it is merely a sequence, and `AnyType` otherwise — in
particular for any argument count other than one. -/
theorem c7_categorical_sample_type (d : Distribution) (h : d.cls = DistClass.categorical) :
    (∀ t m n, d.sample_type [Ty.sequence (Ty.sequence t m) n] = Ty.sequence Ty.integer n)
    ∧ (∀ t n, (∀ t' m, t ≠ Ty.sequence t' m) → d.sample_type [Ty.sequence t n] = Ty.integer)
    ∧ (∀ a, (∀ t n, a ≠ Ty.sequence t n) → d.sample_type [a] = Ty.any)
    ∧ (∀ args, args.length ≠ 1 → d.sample_type args = Ty.any) := by
  refine ⟨?_, ?_, ?_, ?_⟩
  · intro t m n
    simp [Distribution.sample_type, h, CategoricalDistribution.get_sample_type]
  · intro t n hni
    cases t with
    | sequence t' m => exact absurd rfl (hni t' m)
    | _ => simp [Distribution.sample_type, h, CategoricalDistribution.get_sample_type]
  · intro a hna
    cases a with
    | sequence t n => exact absurd rfl (hna t n)
    | _ => simp [Distribution.sample_type, h, CategoricalDistribution.get_sample_type]
  · intro args hlen
    match args with
    | [] => simp [Distribution.sample_type, h, CategoricalDistribution.get_sample_type]
    | [a] => exact absurd rfl hlen
    | a :: b :: rest =>
        simp [Distribution.sample_type, h, CategoricalDistribution.get_sample_type]

/-- C7 witness: the Categorical descriptor on a single argument that is a
sequence of sequences of outer size 4 yields a length-4 sequence of
integers. -/
theorem c7_categorical_sample_type_witness :
    Distribution.sample_type categoricalEntry [Ty.sequence (Ty.sequence Ty.float none) (some 4)]
      = Ty.sequence Ty.integer (some 4) :=
  (c7_categorical_sample_type categoricalEntry rfl).1 Ty.float none (some 4)

/-- The source's declared-type tier (the `where` helper of the probe) and
the spec's rule 4 agree on every type. -/
theorem fromCodeType_eq_declared_type_tier (t : Ty) :
    Distribution.get_support_size_probe.fromCodeType t = .ok (declared_type_tier t) := by
  cases t with
  | sequence item n => cases item <;> rfl
  | _ => rfl

/-- C8: `get_support_size` applies the shape probe to the first argument —
the `BinomialDistribution` override to the second — and the probe agrees
everywhere with the spec's four-tier fallback (`support_size_spec`):
maximum inner length for an all-list literal, outer length otherwise
(`[[1,2],[3,4,5]] ↦ 3`, `[1,2,3,4] ↦ 4`), the same over a non-empty
vector node's items and a non-empty data table's rows, and the declared
type's inner/outer size as last resort, with `None` in every other case. -/
theorem c8_support_size_probes_designated_argument :
    (∀ a rest, Distribution.base_get_support_size (a :: rest)
        = Distribution.get_support_size_probe a)
    ∧ (∀ a b rest, BinomialDistribution.get_support_size (a :: b :: rest)
        = Distribution.get_support_size_probe b)
    ∧ (∀ d args, d.cls ≠ DistClass.binomial →
        Distribution.support_size d args = Distribution.base_get_support_size args)
    ∧ (∀ d args, d.cls = DistClass.binomial →
        Distribution.support_size d args = BinomialDistribution.get_support_size args)
    ∧ (∀ arg, Distribution.get_support_size_probe arg = support_size_spec arg)
    ∧ Distribution.get_support_size_probe
        (.codeValue (.list [.list [.int 1, .int 2], .list [.int 3, .int 4, .int 5]]) .any)
        = .ok (some 3)
    ∧ Distribution.get_support_size_probe
        (.codeValue (.list [.int 1, .int 2, .int 3, .int 4]) .any) = .ok (some 4) := by
  refine ⟨fun a rest => rfl, fun a b rest => rfl, ?_, ?_, ?_, rfl, rfl⟩
  · intro d args hcls
    cases h : d.cls with
    | binomial => exact absurd h hcls
    | _ => simp [Distribution.support_size, h]
  · intro d args hcls
    simp [Distribution.support_size, hcls]
  · intro arg
    cases arg with
    | codeValue v t =>
        cases v <;>
          simp [Distribution.get_support_size_probe, support_size_spec, literal_tier,
            vector_tier, table_tier, CodeObject.code_type, fromCodeType_eq_declared_type_tier]
    | codeVector items t =>
        cases items <;>
          simp [Distribution.get_support_size_probe, support_size_spec, literal_tier,
            vector_tier, table_tier, CodeObject.code_type, fromCodeType_eq_declared_type_tier]
    | codeDataSymbol data t =>
        cases data <;>
          simp [Distribution.get_support_size_probe, support_size_spec, literal_tier,
            vector_tier, table_tier, CodeObject.code_type, fromCodeType_eq_declared_type_tier]
    | codeExpr t =>
        simp [Distribution.get_support_size_probe, support_size_spec, literal_tier,
          vector_tier, table_tier, CodeObject.code_type, fromCodeType_eq_declared_type_tier]

/-- C8 witness: the dispatch clauses instantiated at the Categorical
descriptor (not count-like, so the first argument is probed). -/
theorem c8_support_size_probes_designated_argument_witness :
    Distribution.support_size categoricalEntry [CodeObject.codeExpr Ty.any]
      = Distribution.base_get_support_size [CodeObject.codeExpr Ty.any] :=
  c8_support_size_probes_designated_argument.2.2.1 categoricalEntry
    [CodeObject.codeExpr Ty.any] (by decide)

end PyFOPPL
